import Mathlib

/-!
# Verification of the restbucks cart/checkout core

A shallow embedding of the serializer layer of the `django-restbucks-challenge`
repository (`core/api/serializers.py`, the cart uniqueness migration, and the
checkout flow described by the spec), together with theorems settling the
frozen claims about it.

Conventions:
* Django querysets over a table become Lean lists of records.
* `serializers.ValidationError msg` becomes `Except.error msg`.
* Machinery the framework provides (field lists of a `ModelSerializer`,
  `write_only` handling) is embedded as explicit data read off the `Meta`
  declarations of the source.
-/

/-! ## Users and registration (`RegisterSerializer`) -/

/-- A stored user record: the authentication model's columns that the
serializer touches (`email`, `password`). -/
structure UserRec where
  email : String
  password : String
deriving DecidableEq, Repr

/-- `RegisterSerializer.Meta.fields = ('email', 'password')`. -/
def RegisterSerializer.fields : List String := ["email", "password"]

/-- `extra_kwargs` marks `password` as `write_only`. -/
def RegisterSerializer.write_only : List String := ["password"]

/-- `RegisterSerializer.validate_email`: raises `ValidationError` when a user
with that email already exists in the database (`User.objects.filter(email=value).exists()`),
otherwise returns the value. The database is passed explicitly as `users`. -/
def RegisterSerializer.validate_email (users : List UserRec) (value : String) :
    Except String String :=
  if users.any (fun u => u.email == value) then
    Except.error "The email is taken."
  else
    Except.ok value

/-- `RegisterSerializer.validate_password`: raises `ValidationError` when the
password has fewer than 8 characters, otherwise returns it. -/
def RegisterSerializer.validate_password (value : String) : Except String String :=
  if value.length < 8 then
    Except.error "Password must be at least 8 letters."
  else
    Except.ok value

/-- Django's `user.set_password` (framework code, outside this repository):
it stores a salted hash of the raw password in the algorithm-tagged format
`"<algorithm>$<salt>$<hash>"`, never the raw password itself. We model only
the shape that matters here: the stored value is the raw password tagged by
the hasher, so it is never equal to the raw password. -/
def set_password (raw : String) : String :=
  "pbkdf2_sha256$" ++ raw

/-- `RegisterSerializer.create`: builds the user from the validated data and
stores the hash produced by `set_password`, not the raw password. -/
def RegisterSerializer.create (email password : String) : UserRec :=
  { email := email, password := set_password password }

/-- The serializer's output representation: the declared fields minus the
`write_only` ones, each rendered from the instance. This is how the framework
computes `serializer.data` from `Meta.fields` and `extra_kwargs`. -/
def RegisterSerializer.to_representation (u : UserRec) : List (String × String) :=
  (RegisterSerializer.fields.filter
      (fun f => !(RegisterSerializer.write_only.contains f))).map
    (fun f => (f, if f == "email" then u.email else u.password))

/-- One full registration request against a user table: run the two field
validators (all validation happens before any mutation), then `create`.
Returns the request outcome and the resulting table. -/
def register (users : List UserRec) (email password : String) :
    Except String UserRec × List UserRec :=
  match RegisterSerializer.validate_email users email with
  | Except.error e => (Except.error e, users)
  | Except.ok _ =>
    match RegisterSerializer.validate_password password with
    | Except.error e => (Except.error e, users)
    | Except.ok _ =>
      let u := RegisterSerializer.create email password
      (Except.ok u, users ++ [u])

example : (RegisterSerializer.validate_password "1234567").isOk = false := by decide
example : RegisterSerializer.validate_password "12345678" = Except.ok "12345678" := rfl

/-! ## Products, carts and orders (data model) -/

/-- A product-catalog row: the columns the serializers touch. Prices are
decimals; we embed them as exact rationals. -/
structure Product where
  id : Nat
  title : String
  price : ℚ
  option : String
  items : List String
deriving DecidableEq, Repr

/-- A `core.carts.models.Cart` row: one entry of a user's cart,
`(user, product, customization)`. Users and products are referenced by id. -/
structure CartEntry where
  user : Nat
  product : Nat
  customization : String
deriving DecidableEq, Repr

/-- An `core.orders.models.Order` row. `status_label` embeds the model's
precomputed human-readable label property that `get_status` reads off an
`Order` instance. -/
structure OrderRec where
  id : Nat
  user : Nat
  status : String
  status_label : String
  location : String
  total_price : ℚ
deriving DecidableEq, Repr

/-- The shared durable store: product catalog, cart table, order table. -/
structure StoreState where
  products : List Product
  carts : List CartEntry
  orders : List OrderRec
deriving Repr

/-- `getCart(user)`: all cart rows belonging to `user`
(`Cart.objects.filter(user=user)`). -/
def getCart (s : StoreState) (u : Nat) : List CartEntry :=
  s.carts.filter (fun c => c.user == u)

/-- The price of the product a cart entry references (a catalog lookup by
primary key; `0` stands for the impossible dangling foreign key, which the
store's referential integrity rules out). -/
def priceOf (s : StoreState) (pid : Nat) : ℚ :=
  ((s.products.find? (fun p => p.id == pid)).map (fun p => p.price)).getD 0

/-- `OrderListSerializer.validate`: raise `ValidationError("Cart is empty.")`
when the requesting user has no cart rows
(`not Cart.objects.filter(user=attrs.get('user')).exists()`); otherwise pass
the attrs through unchanged. -/
def OrderListSerializer.validate (carts : List CartEntry) (user : Nat)
    (location : String) : Except String (Nat × String) :=
  if !(carts.any (fun c => c.user == user)) then
    Except.error "Cart is empty."
  else
    Except.ok (user, location)

/-- Modelled from the spec: the checkout conversion itself (4.3) lives in the
orders app and view layer, which are not among the provided sources; only its
serializer-side validation is. Per the spec: validate via
`OrderListSerializer.validate`, freeze `total_price` as the sum of the cart
entries' prices, create one Order row with the initial pending status and the
supplied location, and clear the user's cart in the same transaction. Returns
the outcome together with the resulting store (unchanged on error). -/
def checkout (s : StoreState) (u : Nat) (loc : String) :
    Except String OrderRec × StoreState :=
  match OrderListSerializer.validate s.carts u loc with
  | Except.error e => (Except.error e, s)
  | Except.ok _ =>
    let entries := getCart s u
    let total := (entries.map (fun c => priceOf s c.product)).sum
    let order : OrderRec :=
      { id := s.orders.length, user := u, status := "PENDING",
        status_label := "Pending", location := loc, total_price := total }
    (Except.ok order,
      { s with carts := s.carts.filter (fun c => !(c.user == u)),
               orders := order :: s.orders })

/-- Modelled from the spec: `addToCart` (4.1) — the upsert keyed by
`(user, product)` — is performed by the cart view together with the
`unique_together = ('product', 'user')` constraint of migration
`0002_auto_20180220_0800`; the view layer is not among the provided sources.
Adding a pair that is already present updates the existing entry's
customization in place; otherwise a new entry is inserted. -/
def addToCart (s : StoreState) (u pid : Nat) (cust : String) : StoreState :=
  if s.carts.any (fun c => c.user == u && c.product == pid) then
    let updated := s.carts.map
      (fun c => if c.user == u && c.product == pid then
          { c with customization := cust } else c)
    { s with carts := updated }
  else
    { s with carts := { user := u, product := pid, customization := cust } :: s.carts }

/-- Number of cart rows for one `(user, product)` pair. -/
def countPair (s : StoreState) (u pid : Nat) : Nat :=
  (s.carts.filter (fun c => c.user == u && c.product == pid)).length

/-- The `unique_together` invariant of migration `0002_auto_20180220_0800`:
at most one cart row per `(user, product)` pair. -/
def CartUnique (s : StoreState) : Prop :=
  ∀ u pid, countPair s u pid ≤ 1

/-- A product price change performed after checkout (by the external catalog
owner): replaces the price of product `pid`. -/
def updateProductPrice (s : StoreState) (pid : Nat) (newPrice : ℚ) : StoreState :=
  let updated := s.products.map
    (fun p => if p.id == pid then { p with price := newPrice } else p)
  { s with products := updated }

/-! ## Status projection (`OrderListSerializer.get_status`) -/

/-- Modelled from the spec: the `STATUS` code-to-label mapping is imported
from `core.orders.models`, which is not among the provided sources; the spec
says the exact set is deployment-defined (e.g. `PENDING`, `PAID`, `SHIPPED`,
`CANCELLED`). -/
def STATUS : List (String × String) :=
  [("PENDING", "Pending"), ("PAID", "Paid"),
   ("SHIPPED", "Shipped"), ("CANCELLED", "Cancelled")]

/-- The two input shapes `get_status` accepts: a full `Order` entity, or a
raw dictionary-like payload. -/
inductive StatusArg where
  | entity (o : OrderRec)
  | raw (m : List (String × String))
deriving Repr

/-- `OrderListSerializer.get_status`: an `Order` instance yields its
precomputed `status_label`; a raw mapping yields
`STATUS.get(obj['status'], obj['status'])`, where a missing `'status'` key
(Python `KeyError`) yields `None`. `none` embeds Python's `None`. -/
def OrderListSerializer.get_status : StatusArg → Option String
  | StatusArg.entity o => some o.status_label
  | StatusArg.raw m =>
    match m.lookup "status" with
    | none => none
    | some s => some ((STATUS.lookup s).getD s)

/-! ## Serializer field declarations -/

/-- `BaseProductSerializer.Meta.fields = ['title', 'price', 'option']`. -/
def BaseProductSerializer.fields : List String := ["title", "price", "option"]

/-- `ProductListSerializer.Meta.fields = BaseProductSerializer.Meta.fields + ['items', 'id']`. -/
def ProductListSerializer.fields : List String :=
  BaseProductSerializer.fields ++ ["items", "id"]

/-- `ShowCartsSerializer.CartProductSerializer.Meta.fields
  = BaseProductSerializer.Meta.fields + ['selected_item', 'id']`. -/
def CartProductSerializer.fields : List String :=
  BaseProductSerializer.fields ++ ["selected_item", "id"]

/-- `ShowCartsSerializer.Meta.fields = ('count', 'total_price', 'products')`. -/
def ShowCartsSerializer.fields : List String := ["count", "total_price", "products"]

/-- `OrderListSerializer.Meta.fields = ('id', 'status', 'date', 'location', 'user', 'total_price')`. -/
def OrderListSerializer.fields : List String :=
  ["id", "status", "date", "location", "user", "total_price"]

/-- `OrderListSerializer.Meta.read_only_fields = ('id', 'status', 'date', 'total_price')`. -/
def OrderListSerializer.read_only_fields : List String :=
  ["id", "status", "date", "total_price"]

/-- The format string of `OrderListSerializer.date`:
`serializers.DateTimeField(format='%d %b %Y-%H:%M', ...)`. -/
def OrderListSerializer.date_format : String := "%d %b %Y-%H:%M"

/-- `user = serializers.HiddenField(default=serializers.CurrentUserDefault())`:
a `HiddenField` takes no caller input and is never rendered into
`serializer.data` — the framework forces it `write_only`. -/
def OrderListSerializer.write_only : List String := ["user"]

/-- The emitted Order representation's field names: the declared `Meta.fields`
minus the `write_only` ones — how the framework computes the keys of
`serializer.data` (the same filtering `RegisterSerializer.to_representation`
applies to its write-only password). -/
def OrderListSerializer.output_fields : List String :=
  OrderListSerializer.fields.filter
    (fun f => !(OrderListSerializer.write_only.contains f))

/-! ## Date rendering (`DateTimeField(format=...)`) -/

/-- A calendar timestamp, to the minute (what the format string consumes). -/
structure DateTime where
  year : Nat
  month : Nat
  day : Nat
  hour : Nat
  minute : Nat
deriving DecidableEq, Repr

/-- Zero-padded two-digit rendering, as `strftime`'s `%d`/`%H`/`%M` produce. -/
def two_digit (n : Nat) : String :=
  if n < 10 then "0" ++ toString n else toString n

/-- `strftime`'s `%b`: the abbreviated month name. -/
def month_abbrev : Nat → String
  | 1 => "Jan" | 2 => "Feb" | 3 => "Mar" | 4 => "Apr"
  | 5 => "May" | 6 => "Jun" | 7 => "Jul" | 8 => "Aug"
  | 9 => "Sep" | 10 => "Oct" | 11 => "Nov" | 12 => "Dec"
  | _ => ""

/-- The fragment of `strftime` that the field's format string uses:
`%d`, `%b`, `%Y`, `%H`, `%M` are substituted, every other character is
copied through. -/
def strftimeAux (dt : DateTime) : List Char → String
  | [] => ""
  | '%' :: c :: rest =>
    (match c with
     | 'd' => two_digit dt.day
     | 'b' => month_abbrev dt.month
     | 'Y' => toString dt.year
     | 'H' => two_digit dt.hour
     | 'M' => two_digit dt.minute
     | c => String.singleton c) ++ strftimeAux dt rest
  | c :: rest => String.singleton c ++ strftimeAux dt rest

/-- Render a timestamp through a `strftime`-style format string. -/
def strftime (fmt : String) (dt : DateTime) : String :=
  strftimeAux dt fmt.data

example :
    strftime OrderListSerializer.date_format
      { year := 2018, month := 2, day := 20, hour := 8, minute := 0 } =
      "20 Feb 2018-08:00" := by decide

/-! ## Theorems settling the claims -/

/-- C6: `RegisterSerializer.validate_password` rejects (raises
`ValidationError` on) every password shorter than 8 characters and accepts
(returns unchanged) every password of length at least 8. -/
theorem validate_password_length_boundary (p : String) :
    (p.length < 8 →
      RegisterSerializer.validate_password p =
        Except.error "Password must be at least 8 letters.") ∧
    (8 ≤ p.length → RegisterSerializer.validate_password p = Except.ok p) := by
  refine ⟨fun h => ?_, fun h => ?_⟩
  · simp [RegisterSerializer.validate_password, h]
  · simp only [RegisterSerializer.validate_password, if_neg (by omega : ¬p.length < 8)]

/-- C6 witness: the boundary instances — length 7 fails, length 8 passes. -/
theorem validate_password_length_boundary_witness :
    RegisterSerializer.validate_password "1234567" =
      Except.error "Password must be at least 8 letters." ∧
    RegisterSerializer.validate_password "12345678" = Except.ok "12345678" :=
  ⟨(validate_password_length_boundary "1234567").1 (by decide),
   (validate_password_length_boundary "12345678").2 (by decide)⟩

/-- C9: `RegisterSerializer.create` stores the hash produced by
`set_password`, never the raw password: the stored password differs from the
raw input for every registration input. -/
theorem create_stores_hashed_password (email p : String) :
    (RegisterSerializer.create email p).password = set_password p ∧
    (RegisterSerializer.create email p).password ≠ p := by
  refine ⟨rfl, fun heq => ?_⟩
  have hlen := congrArg String.length heq
  have h14 : ("pbkdf2_sha256$" : String).length = 14 := rfl
  rw [RegisterSerializer.create] at hlen
  simp only [set_password, String.length_append] at hlen
  omega

/-- C10: the serialized output of `RegisterSerializer` contains only the
`email` field (the `write_only` password never flows to the output): two
users agreeing on email — hence possibly differing only in password —
serialize identically, and the output's keys are exactly `["email"]`. -/
theorem register_output_no_password (u1 u2 : UserRec) (h : u1.email = u2.email) :
    RegisterSerializer.to_representation u1 = RegisterSerializer.to_representation u2 ∧
    (RegisterSerializer.to_representation u1).map Prod.fst = ["email"] := by
  refine ⟨?_, rfl⟩
  show [("email", u1.email)] = [("email", u2.email)]
  rw [h]

/-- C10 witness: two concrete users differing only in password produce the
same, email-only output. -/
theorem register_output_no_password_witness :
    RegisterSerializer.to_representation { email := "a@b.c", password := "secret-one" } =
      RegisterSerializer.to_representation { email := "a@b.c", password := "secret-two" } ∧
    (RegisterSerializer.to_representation
        { email := "a@b.c", password := "secret-one" }).map Prod.fst = ["email"] :=
  register_output_no_password
    { email := "a@b.c", password := "secret-one" }
    { email := "a@b.c", password := "secret-two" } rfl

/-- C3: `OrderListSerializer.get_status` on an `Order` entity returns the
precomputed `status_label` whatever the raw `status` code is; on a raw
mapping whose `status` value is not a known code it returns that raw value
unchanged; on a mapping without a `status` key it returns `None`; being a
total function into `Option String` it never raises. -/
theorem get_status_projection :
    (∀ o : OrderRec,
      OrderListSerializer.get_status (StatusArg.entity o) = some o.status_label) ∧
    (∀ (m : List (String × String)) (s : String), m.lookup "status" = some s →
      STATUS.lookup s = none →
      OrderListSerializer.get_status (StatusArg.raw m) = some s) ∧
    (∀ m : List (String × String), m.lookup "status" = none →
      OrderListSerializer.get_status (StatusArg.raw m) = none) := by
  refine ⟨fun o => rfl, fun m s hm hs => ?_, fun m hm => ?_⟩
  · simp [OrderListSerializer.get_status, hm, hs]
  · simp [OrderListSerializer.get_status, hm]

/-- C3 witness: a concrete entity, a concrete unmapped raw payload, and a
concrete payload missing the `status` key. -/
theorem get_status_projection_witness :
    OrderListSerializer.get_status
      (StatusArg.entity
        { id := 1, user := 2, status := "XYZ", status_label := "Pending",
          location := "here", total_price := 5 }) = some "Pending" ∧
    OrderListSerializer.get_status (StatusArg.raw [("status", "ZZZ")]) = some "ZZZ" ∧
    OrderListSerializer.get_status (StatusArg.raw [("other", "x")]) = none :=
  ⟨get_status_projection.1 _,
   get_status_projection.2.1 [("status", "ZZZ")] "ZZZ" (by decide) (by decide),
   get_status_projection.2.2 [("other", "x")] (by decide)⟩

/-- C5 counterexample: the per-product projection of the cart summary does
NOT contain an `items` field — its field list is
`['title', 'price', 'option', 'selected_item', 'id']`, so the claimed field
set (which includes `items`) is wrong. -/
theorem cart_product_fields_no_items :
    "items" ∉ CartProductSerializer.fields ∧
    CartProductSerializer.fields ≠
      ["title", "price", "option", "items", "selected_item", "id"] := by
  decide

/-- C5 (amended): the emitted CartSummary has the shape
`{count, total_price, products}`, and every per-product projection contains
exactly the fields `title`, `price`, `option`, `selected_item`, `id`
(there is no `items` field, unlike the full product listing). -/
theorem cart_summary_shape :
    ShowCartsSerializer.fields = ["count", "total_price", "products"] ∧
    CartProductSerializer.fields = ["title", "price", "option", "selected_item", "id"] ∧
    ProductListSerializer.fields = ["title", "price", "option", "items", "id"] := by
  decide

/-- C8 counterexample: the declared `user` field is a `HiddenField`, hence
write-only and never emitted, so the emitted Order representation's field set
is not the claimed six-field set containing `user`. -/
theorem order_output_excludes_user :
    "user" ∉ OrderListSerializer.output_fields ∧
    OrderListSerializer.output_fields ≠
      ["id", "status", "date", "location", "user", "total_price"] := by
  decide

/-- C8 (amended): the emitted Order representation has exactly the fields
`id, status, date, location, total_price` — `user` is declared in
`Meta.fields` but, being a write-only `HiddenField`, never appears in the
output; `id`, `status`, `date` and `total_price` are read-only to the caller;
and the `date` field's format string `%d %b %Y-%H:%M` renders every timestamp
as `DD Mon YYYY-HH:MM`. -/
theorem order_emitted_representation :
    OrderListSerializer.fields = ["id", "status", "date", "location", "user", "total_price"] ∧
    OrderListSerializer.output_fields = ["id", "status", "date", "location", "total_price"] ∧
    OrderListSerializer.read_only_fields = ["id", "status", "date", "total_price"] ∧
    OrderListSerializer.date_format = "%d %b %Y-%H:%M" ∧
    ∀ dt : DateTime, strftime OrderListSerializer.date_format dt =
      two_digit dt.day ++ " " ++ month_abbrev dt.month ++ " " ++ toString dt.year
        ++ "-" ++ two_digit dt.hour ++ ":" ++ two_digit dt.minute := by
  refine ⟨rfl, rfl, rfl, rfl, fun dt => ?_⟩
  show strftimeAux dt ['%','d',' ','%','b',' ','%','Y','-','%','H',':','%','M'] = _
  simp [strftimeAux, String.append_assoc]
  rfl

/-- C1: with an empty cart, `OrderListSerializer.validate` fails with
`ValidationError("Cart is empty.")`, and the checkout it guards returns that
error with the store unchanged — no Order is created, nothing is mutated. -/
theorem checkout_empty_cart_fails (s : StoreState) (u : Nat) (loc : String)
    (h : getCart s u = []) :
    OrderListSerializer.validate s.carts u loc = Except.error "Cart is empty." ∧
    checkout s u loc = (Except.error "Cart is empty.", s) := by
  have hany : s.carts.any (fun c => c.user == u) = false := by
    rw [List.any_eq_false]
    intro c hc hcu
    have hmem : c ∈ s.carts.filter (fun c => c.user == u) :=
      List.mem_filter.mpr ⟨hc, hcu⟩
    rw [getCart] at h
    simp [h] at hmem
  have hval : OrderListSerializer.validate s.carts u loc = Except.error "Cart is empty." := by
    simp [OrderListSerializer.validate, hany]
  exact ⟨hval, by simp [checkout, hval]⟩

/-- C1 witness: a user with no cart rows; validation and checkout fail with
the exact message and the store is returned unchanged. -/
theorem checkout_empty_cart_fails_witness :
    getCart { products := [], carts := [], orders := [] } 0 = [] ∧
    checkout { products := [], carts := [], orders := [] } 0 "Tehran" =
      (Except.error "Cart is empty.", { products := [], carts := [], orders := [] }) :=
  ⟨rfl, (checkout_empty_cart_fails { products := [], carts := [], orders := [] } 0 "Tehran" rfl).2⟩

/-- C7: `RegisterSerializer.validate_email` raises `ValidationError` exactly
when a user with that email already exists; consequently registering twice
with the same (fresh) email and a valid password leaves exactly one user
record with that email. -/
theorem register_duplicate_email (users : List UserRec) (e p : String)
    (hnew : ∀ u ∈ users, u.email ≠ e) (hp : 8 ≤ p.length) :
    (∀ value : String,
      (∃ msg, RegisterSerializer.validate_email users value = Except.error msg) ↔
        ∃ u ∈ users, u.email = value) ∧
    ((register (register users e p).2 e p).2.filter (fun u => u.email == e)).length = 1 := by
  constructor
  · intro value
    by_cases hx : users.any (fun u => u.email == value) = true
    · constructor
      · intro _
        simpa using hx
      · intro _
        exact ⟨"The email is taken.", by simp [RegisterSerializer.validate_email, hx]⟩
    · have hx' : users.any (fun u => u.email == value) = false := by
        simpa using hx
      constructor
      · rintro ⟨msg, hmsg⟩
        simp [RegisterSerializer.validate_email, hx'] at hmsg
      · intro hex
        exact absurd (by simpa using hex) (by simpa using hx)
  · have hanyF : users.any (fun u => u.email == e) = false := by
      rw [List.any_eq_false]
      intro x hx
      simpa using hnew x hx
    have h1 : register users e p =
        (Except.ok (RegisterSerializer.create e p),
         users ++ [RegisterSerializer.create e p]) := by
      simp [register, RegisterSerializer.validate_email, hanyF,
        RegisterSerializer.validate_password, if_neg (by omega : ¬p.length < 8)]
    have hanyT : (users ++ [RegisterSerializer.create e p]).any
        (fun u => u.email == e) = true := by
      simp [RegisterSerializer.create]
    have h2 : register (users ++ [RegisterSerializer.create e p]) e p =
        (Except.error "The email is taken.",
         users ++ [RegisterSerializer.create e p]) := by
      simp [register, RegisterSerializer.validate_email, hanyT]
    have hfil : users.filter (fun u => u.email == e) = [] := by
      rw [List.filter_eq_nil_iff]
      intro a ha
      simpa using hnew a ha
    rw [h1]
    rw [h2]
    simp [List.filter_append, hfil, RegisterSerializer.create]

/-- C7 witness: registering `x@y.z` twice into an empty user table leaves
exactly one record with that email. -/
theorem register_duplicate_email_witness :
    (∀ u ∈ ([] : List UserRec), u.email ≠ "x@y.z") ∧ 8 ≤ ("password1" : String).length ∧
    ((register (register [] "x@y.z" "password1").2 "x@y.z" "password1").2.filter
      (fun u => u.email == "x@y.z")).length = 1 :=
  ⟨by simp, by decide,
   (register_duplicate_email [] "x@y.z" "password1" (by simp) (by decide)).2⟩

/-- Clearing a user's rows leaves nothing of that user to find: filtering
the kept rows for the cleared user yields the empty list. -/
lemma filter_user_of_cleared (l : List CartEntry) (u : Nat) :
    (l.filter (fun c => !(c.user == u))).filter (fun c => c.user == u) = [] := by
  rw [List.filter_filter, List.filter_eq_nil_iff]
  intro a _
  cases h : a.user == u <;> simp [h]

/-- A concrete store used to witness the checkout claims: two products and a
two-entry cart for user 7. -/
def sampleStore : StoreState :=
  { products :=
      [{ id := 1, title := "Latte", price := 10, option := "milk", items := ["skim", "semi"] },
       { id := 2, title := "Tea", price := 31/2, option := "", items := [] }],
    carts :=
      [{ user := 7, product := 1, customization := "skim" },
       { user := 7, product := 2, customization := "" }],
    orders := [] }

/-- C2: checkout of a non-empty cart succeeds and produces exactly one new
Order whose `total_price` is the sum of the cart entries' prices at checkout
time; afterwards the user's cart is empty, and later product price changes
leave the stored orders — hence the Order's frozen `total_price` —
untouched. -/
theorem checkout_nonempty_cart (s : StoreState) (u : Nat) (loc : String)
    (h : getCart s u ≠ []) :
    ∃ o s2, checkout s u loc = (Except.ok o, s2) ∧
      o.total_price = ((getCart s u).map (fun c => priceOf s c.product)).sum ∧
      getCart s2 u = [] ∧
      s2.orders = o :: s.orders ∧
      s2.carts = s.carts.filter (fun c => !(c.user == u)) ∧
      ∀ pid newPrice, (updateProductPrice s2 pid newPrice).orders = s2.orders := by
  have hany : s.carts.any (fun c => c.user == u) = true := by
    obtain ⟨x, hx⟩ := List.exists_mem_of_ne_nil _ h
    have hx' := List.mem_filter.mp hx
    exact List.any_eq_true.mpr ⟨x, hx'.1, hx'.2⟩
  have hval : OrderListSerializer.validate s.carts u loc = Except.ok (u, loc) := by
    simp [OrderListSerializer.validate, hany]
  have hck : checkout s u loc =
      (Except.ok
        { id := s.orders.length, user := u, status := "PENDING", status_label := "Pending",
          location := loc,
          total_price := ((getCart s u).map (fun c => priceOf s c.product)).sum },
        { s with
          carts := s.carts.filter (fun c => !(c.user == u)),
          orders :=
            { id := s.orders.length, user := u, status := "PENDING",
              status_label := "Pending", location := loc,
              total_price := ((getCart s u).map (fun c => priceOf s c.product)).sum }
              :: s.orders }) := by
    simp [checkout, hval]
  exact ⟨_, _, hck, rfl, filter_user_of_cleared s.carts u, rfl, rfl, fun pid np => rfl⟩

/-- C2 witness: checking out user 7's two-entry cart in the sample store. -/
theorem checkout_nonempty_cart_witness :
    getCart sampleStore 7 ≠ [] ∧
    ∃ o s2, checkout sampleStore 7 "Warehouse-1" = (Except.ok o, s2) ∧
      o.total_price = ((getCart sampleStore 7).map (fun c => priceOf sampleStore c.product)).sum ∧
      getCart s2 7 = [] ∧
      s2.orders = o :: sampleStore.orders ∧
      s2.carts = sampleStore.carts.filter (fun c => !(c.user == 7)) ∧
      ∀ pid newPrice, (updateProductPrice s2 pid newPrice).orders = s2.orders :=
  ⟨by decide, checkout_nonempty_cart sampleStore 7 "Warehouse-1" (by decide)⟩

/-- The upsert's in-place customization update leaves every entry's
`(user, product)` key — hence every pair predicate — unchanged. -/
lemma pair_pred_update (u pid u2 pid2 : Nat) (cust : String) (b : CartEntry) :
    ((if (b.user == u && b.product == pid) = true then
        { b with customization := cust } else b).user == u2 &&
     (if (b.user == u && b.product == pid) = true then
        { b with customization := cust } else b).product == pid2) =
    (b.user == u2 && b.product == pid2) := by
  by_cases hb : (b.user == u && b.product == pid) = true
  · rw [if_pos hb]
  · rw [if_neg hb]

/-- Updating customizations in place never changes which rows match a
`(user, product)` pair: the upsert's map preserves every pair count. -/
lemma filter_length_map_update (l : List CartEntry) (u pid u2 pid2 : Nat) (cust : String) :
    ((l.map (fun c => if c.user == u && c.product == pid then
        { c with customization := cust } else c)).filter
      (fun c => c.user == u2 && c.product == pid2)).length =
    (l.filter (fun c => c.user == u2 && c.product == pid2)).length := by
  induction l with
  | nil => rfl
  | cons a t ih =>
    simp only [List.map_cons, List.filter_cons, pair_pred_update u pid u2 pid2 cust a]
    by_cases h2 : (a.user == u2 && a.product == pid2) = true
    · rw [if_pos h2, if_pos h2, List.length_cons, List.length_cons, ih]
    · rw [if_neg h2, if_neg h2]
      exact ih

/-- Prepending one cart row bumps exactly the matching pair's count. -/
lemma countPair_state_cons (st : StoreState) (e : CartEntry) (u2 pid2 : Nat) :
    countPair { st with carts := e :: st.carts } u2 pid2 =
      (if (e.user == u2 && e.product == pid2) = true then 1 else 0) +
        countPair st u2 pid2 := by
  unfold countPair
  simp only [List.filter_cons]
  by_cases h : (e.user == u2 && e.product == pid2) = true
  · rw [if_pos h, if_pos h, List.length_cons]
    omega
  · rw [if_neg h, if_neg h]
    omega

/-- A pair is present in the cart table iff its count is positive. -/
lemma any_pair_iff_countPair_pos (s : StoreState) (u pid : Nat) :
    s.carts.any (fun c => c.user == u && c.product == pid) = true ↔
      0 < countPair s u pid := by
  constructor
  · intro h
    obtain ⟨x, hx, hpx⟩ := List.any_eq_true.mp h
    exact List.length_pos.mpr (List.ne_nil_of_mem (List.mem_filter.mpr ⟨hx, hpx⟩))
  · intro h
    obtain ⟨x, hx⟩ := List.exists_mem_of_ne_nil _ (List.length_pos.mp h)
    have hx' := List.mem_filter.mp hx
    exact List.any_eq_true.mpr ⟨x, hx'.1, hx'.2⟩

/-- One `addToCart` step: on a store satisfying the uniqueness constraint it
preserves the constraint, leaves exactly one row for the touched pair, and —
when the pair was already present — adds no row at all. -/
lemma addToCart_step (st : StoreState) (u pid : Nat) (cust : String)
    (hst : CartUnique st) :
    CartUnique (addToCart st u pid cust) ∧
    countPair (addToCart st u pid cust) u pid = 1 ∧
    (st.carts.any (fun c => c.user == u && c.product == pid) = true →
      (addToCart st u pid cust).carts.length = st.carts.length) := by
  by_cases hA : st.carts.any (fun c => c.user == u && c.product == pid) = true
  · have hsel : addToCart st u pid cust =
        { st with carts := st.carts.map (fun c =>
            if (c.user == u && c.product == pid) = true then
              { c with customization := cust } else c) } := by
      unfold addToCart
      rw [if_pos hA]
    have hcount : ∀ u2 pid2,
        countPair (addToCart st u pid cust) u2 pid2 = countPair st u2 pid2 := by
      intro u2 pid2
      rw [hsel]
      exact filter_length_map_update st.carts u pid u2 pid2 cust
    have hone : countPair st u pid = 1 := by
      have := (any_pair_iff_countPair_pos st u pid).mp hA
      have := hst u pid
      omega
    refine ⟨fun u2 pid2 => ?_, ?_, fun _ => ?_⟩
    · rw [hcount]
      exact hst u2 pid2
    · rw [hcount, hone]
    · rw [hsel]
      exact List.length_map st.carts _
  · have hzero : countPair st u pid = 0 := by
      have := (any_pair_iff_countPair_pos st u pid).not.mp hA
      omega
    have hsel : addToCart st u pid cust =
        { st with carts :=
            { user := u, product := pid, customization := cust } :: st.carts } := by
      unfold addToCart
      rw [if_neg hA]
    have hmain : countPair (addToCart st u pid cust) u pid = 1 := by
      rw [hsel, countPair_state_cons]
      simp [hzero]
    have hother : ∀ u2 pid2, ¬(u2 = u ∧ pid2 = pid) →
        countPair (addToCart st u pid cust) u2 pid2 = countPair st u2 pid2 := by
      intro u2 pid2 hne
      rw [hsel, countPair_state_cons]
      have hne' : ¬(u = u2 ∧ pid = pid2) := fun h => hne ⟨h.1.symm, h.2.symm⟩
      simp [hne']
    refine ⟨fun u2 pid2 => ?_, hmain, fun hcontra => absurd hcontra hA⟩
    by_cases hp : u2 = u ∧ pid2 = pid
    · obtain ⟨rfl, rfl⟩ := hp
      omega
    · rw [hother u2 pid2 hp]
      exact hst u2 pid2

/-- C4: adding the same `(user, product)` pair twice updates the existing
cart row instead of creating a second one — on any store satisfying the
uniqueness constraint, each add preserves the constraint, the second add
adds no row, and exactly one row for the pair remains. -/
theorem cart_upsert_unique (s : StoreState) (u pid : Nat) (c1 c2 : String)
    (hs : CartUnique s) :
    CartUnique (addToCart s u pid c1) ∧
    CartUnique (addToCart (addToCart s u pid c1) u pid c2) ∧
    countPair (addToCart (addToCart s u pid c1) u pid c2) u pid = 1 ∧
    (addToCart (addToCart s u pid c1) u pid c2).carts.length =
      (addToCart s u pid c1).carts.length := by
  obtain ⟨h1u, h1c, _⟩ := addToCart_step s u pid c1 hs
  obtain ⟨h2u, h2c, h2len⟩ := addToCart_step (addToCart s u pid c1) u pid c2 h1u
  exact ⟨h1u, h2u, h2c,
    h2len ((any_pair_iff_countPair_pos _ u pid).mpr (by omega))⟩

/-- C4 witness: adding product 2 for user 1 twice to an initially empty
store leaves exactly one row and the second add changes no row count. -/
theorem cart_upsert_unique_witness :
    CartUnique { products := [], carts := [], orders := [] } ∧
    (CartUnique (addToCart { products := [], carts := [], orders := [] } 1 2 "a") ∧
     CartUnique (addToCart (addToCart { products := [], carts := [], orders := [] } 1 2 "a")
       1 2 "b") ∧
     countPair (addToCart (addToCart { products := [], carts := [], orders := [] } 1 2 "a")
       1 2 "b") 1 2 = 1 ∧
     (addToCart (addToCart { products := [], carts := [], orders := [] } 1 2 "a")
         1 2 "b").carts.length =
       (addToCart { products := [], carts := [], orders := [] } 1 2 "a").carts.length) :=
  ⟨fun u pid => by simp [countPair],
   cart_upsert_unique { products := [], carts := [], orders := [] } 1 2 "a" "b"
     (fun u pid => by simp [countPair])⟩
